import Mathlib

/-!
Verification of the four-character-code value type (`AEEventClass` wrapping
`FourCharCode`) from `src/core_services/apple_events/event_class.rs` and the
Core Foundation sentinel/index declarations from `src/core_foundation/mod.rs`.

Machine integers are embedded as `Nat` (with bounds stated explicitly where
they matter); `isize` is embedded as `Int`.  The `FourCharCode` implementation
itself lives outside the reviewed sources (only its callers are present), so
its operations are modelled from the spec, as noted on each such definition.
-/

/-- A 4-element byte sequence, the embedding of the Rust type `[u8; 4]`.
Each field holds one byte as a `Nat`; `Chars4.Valid` states the byte bounds. -/
structure Chars4 where
  c0 : Nat
  c1 : Nat
  c2 : Nat
  c3 : Nat
deriving DecidableEq

/-- Every component of the sequence is a byte (fits in 8 bits). -/
def Chars4.Valid (c : Chars4) : Prop :=
  c.c0 < 256 ∧ c.c1 < 256 ∧ c.c2 < 256 ∧ c.c3 < 256

instance (c : Chars4) : Decidable c.Valid := by
  unfold Chars4.Valid; infer_instance

/-- Modelled from the spec: `FourCharCode` (defined in `crate::core`, outside
the reviewed sources) is "a 32-bit unsigned value whose byte layout
corresponds 1:1, in big-endian order, to four printable ASCII characters". -/
structure FourCharCode where
  int : Nat
deriving DecidableEq

/-- Modelled from the spec: `FourCharCode::from_int` "wraps the raw integer
verbatim; no validation performed". -/
def FourCharCode.from_int (int : Nat) : FourCharCode :=
  ⟨int⟩

/-- Modelled from the spec: `FourCharCode::from_chars` "packs the four bytes
into a 32-bit unsigned value in big-endian order (first byte occupies the
most significant 8 bits)". -/
def FourCharCode.from_chars (chars : Chars4) : FourCharCode :=
  ⟨chars.c0 * 2 ^ 24 + chars.c1 * 2 ^ 16 + chars.c2 * 2 ^ 8 + chars.c3⟩

/-- Modelled from the spec: `FourCharCode::into_int` "returns the stored
value unchanged". -/
def FourCharCode.into_int (self : FourCharCode) : Nat :=
  self.int

/-- Modelled from the spec: `FourCharCode::into_chars` "unpacks the 32-bit
value back into four bytes in the same big-endian order used by
`from_chars`". -/
def FourCharCode.into_chars (self : FourCharCode) : Chars4 :=
  ⟨self.int / 2 ^ 24 % 256, self.int / 2 ^ 16 % 256, self.int / 2 ^ 8 % 256, self.int % 256⟩

/-- A byte is printable ASCII (space through tilde, 0x20..=0x7E). -/
def printableAscii (b : Nat) : Bool :=
  decide (0x20 ≤ b) && decide (b ≤ 0x7E)

/-- A lowercase hexadecimal digit character for a value below 16. -/
def hexDigitChar (n : Nat) : Char :=
  if n < 10 then Char.ofNat (48 + n) else Char.ofNat (87 + n)

/-- Modelled from the spec: Debug formatting of one byte — the byte rendered
"interpreted as ASCII, escaping non-printable bytes": a printable byte is its
literal character, any other byte a backslash-x hex escape. -/
def renderByte (b : Nat) : List Char :=
  if printableAscii b then [Char.ofNat b]
  else ['\\', 'x', hexDigitChar (b / 16 % 16), hexDigitChar (b % 16)]

/-- Modelled from the spec: `FourCharCode`'s Debug formatting "renders the
value as its four constituent bytes interpreted as ASCII, escaping
non-printable bytes". -/
def FourCharCode.fmtDebug (self : FourCharCode) : List Char :=
  renderByte self.into_chars.c0 ++ renderByte self.into_chars.c1 ++
    renderByte self.into_chars.c2 ++ renderByte self.into_chars.c3

/-- The Rust type `AEEventClass(pub FourCharCode)`: a transparent wrapper
around a `FourCharCode` (`event_class.rs`, line 15). -/
structure AEEventClass where
  fcc : FourCharCode
deriving DecidableEq

/-- `AEEventClass::from_int`: `Self(FourCharCode::from_int(int))`. -/
def AEEventClass.from_int (int : Nat) : AEEventClass :=
  ⟨FourCharCode.from_int int⟩

/-- `AEEventClass::from_chars`: `Self(FourCharCode::from_chars(chars))`. -/
def AEEventClass.from_chars (chars : Chars4) : AEEventClass :=
  ⟨FourCharCode.from_chars chars⟩

/-- `AEEventClass::into_int`: `self.0.into_int()`. -/
def AEEventClass.into_int (self : AEEventClass) : Nat :=
  self.fcc.into_int

/-- `AEEventClass::into_chars`: `self.0.into_chars()`. -/
def AEEventClass.into_chars (self : AEEventClass) : Chars4 :=
  self.fcc.into_chars

/-- `impl fmt::Debug for AEEventClass`: delegates to `self.0.fmt(f)`,
formatting as an escaped ASCII string (`event_class.rs`, lines 17-23). -/
def AEEventClass.fmt (self : AEEventClass) : List Char :=
  self.fcc.fmtDebug

/-- Modelled from the spec: the derived `Ord`/`PartialOrd` on the transparent
wrapper — "total ordering and equality are structural (value equality on the
32-bit integer)". -/
def AEEventClass.le (a b : AEEventClass) : Prop :=
  a.fcc.int ≤ b.fcc.int

/-- `AEEventClass::CORE`, value `aevt` (`kCoreEventClass`). -/
def AEEventClass.CORE : AEEventClass := AEEventClass.from_chars ⟨0x61, 0x65, 0x76, 0x74⟩

/-- `AEEventClass::MOUSE`, value `mous` (`kEventClassMouse`). -/
def AEEventClass.MOUSE : AEEventClass := AEEventClass.from_chars ⟨0x6D, 0x6F, 0x75, 0x73⟩

/-- `AEEventClass::KEYBOARD`, value `keyb` (`kEventClassKeyboard`). -/
def AEEventClass.KEYBOARD : AEEventClass := AEEventClass.from_chars ⟨0x6B, 0x65, 0x79, 0x62⟩

/-- `AEEventClass::TEXT_INPUT`, value `text` (`kEventClassTextInput`). -/
def AEEventClass.TEXT_INPUT : AEEventClass := AEEventClass.from_chars ⟨0x74, 0x65, 0x78, 0x74⟩

/-- `AEEventClass::APPLICATION`, value `appl` (`kEventClassApplication`). -/
def AEEventClass.APPLICATION : AEEventClass := AEEventClass.from_chars ⟨0x61, 0x70, 0x70, 0x6C⟩

/-- `AEEventClass::APPLE_EVENT`, value `eppc` (`kEventClassAppleEvent`). -/
def AEEventClass.APPLE_EVENT : AEEventClass := AEEventClass.from_chars ⟨0x65, 0x70, 0x70, 0x63⟩

/-- `AEEventClass::MENU`, value `menu` (`kEventClassMenu`). -/
def AEEventClass.MENU : AEEventClass := AEEventClass.from_chars ⟨0x6D, 0x65, 0x6E, 0x75⟩

/-- `AEEventClass::WINDOW`, value `wind` (`kEventClassWindow`). -/
def AEEventClass.WINDOW : AEEventClass := AEEventClass.from_chars ⟨0x77, 0x69, 0x6E, 0x64⟩

/-- `AEEventClass::CONTROL`, value `cntl` (`kEventClassControl`). -/
def AEEventClass.CONTROL : AEEventClass := AEEventClass.from_chars ⟨0x63, 0x6E, 0x74, 0x6C⟩

/-- `AEEventClass::COMMAND`, value `cmds` (`kEventClassCommand`). -/
def AEEventClass.COMMAND : AEEventClass := AEEventClass.from_chars ⟨0x63, 0x6D, 0x64, 0x73⟩

/-- `AEEventClass::TABLET`, value `tblt` (`kEventClassTablet`). -/
def AEEventClass.TABLET : AEEventClass := AEEventClass.from_chars ⟨0x74, 0x62, 0x6C, 0x74⟩

/-- `AEEventClass::VOLUME`, value `vol ` with a trailing space (`kEventClassVolume`). -/
def AEEventClass.VOLUME : AEEventClass := AEEventClass.from_chars ⟨0x76, 0x6F, 0x6C, 0x20⟩

/-- `AEEventClass::APPEARANCE_MANAGER`, value `appm` (`kEventClassAppearance`). -/
def AEEventClass.APPEARANCE_MANAGER : AEEventClass := AEEventClass.from_chars ⟨0x61, 0x70, 0x70, 0x6D⟩

/-- `AEEventClass::SERVICE`, value `serv` (`kEventClassService`). -/
def AEEventClass.SERVICE : AEEventClass := AEEventClass.from_chars ⟨0x73, 0x65, 0x72, 0x76⟩

/-- `AEEventClass::TOOLBAR`, value `tbar` (`kEventClassToolbar`). -/
def AEEventClass.TOOLBAR : AEEventClass := AEEventClass.from_chars ⟨0x74, 0x62, 0x61, 0x72⟩

/-- `AEEventClass::TOOLBAR_ITEM`, value `tbit` (`kEventClassToolbarItem`). -/
def AEEventClass.TOOLBAR_ITEM : AEEventClass := AEEventClass.from_chars ⟨0x74, 0x62, 0x69, 0x74⟩

/-- `AEEventClass::TOOLBAR_ITEM_VIEW`, value `tbiv` (`kEventClassToolbarItemView`). -/
def AEEventClass.TOOLBAR_ITEM_VIEW : AEEventClass := AEEventClass.from_chars ⟨0x74, 0x62, 0x69, 0x76⟩

/-- `AEEventClass::ACCESSIBILITY`, value `acce` (`kEventClassAccessibility`). -/
def AEEventClass.ACCESSIBILITY : AEEventClass := AEEventClass.from_chars ⟨0x61, 0x63, 0x63, 0x65⟩

/-- `AEEventClass::SYSTEM`, value `macs` (`kEventClassSystem`). -/
def AEEventClass.SYSTEM : AEEventClass := AEEventClass.from_chars ⟨0x6D, 0x61, 0x63, 0x73⟩

/-- `AEEventClass::INK`, value `ink ` with a trailing space (`kEventClassInk`). -/
def AEEventClass.INK : AEEventClass := AEEventClass.from_chars ⟨0x69, 0x6E, 0x6B, 0x20⟩

/-- `AEEventClass::TSM_DOCUMENT_ACCESS`, value `tdac` (`kEventClassTSMDocumentAccess`). -/
def AEEventClass.TSM_DOCUMENT_ACCESS : AEEventClass := AEEventClass.from_chars ⟨0x74, 0x64, 0x61, 0x63⟩

/-- `AEEventClass::GESTURE`, value `gest` (`kEventClassGesture`). -/
def AEEventClass.GESTURE : AEEventClass := AEEventClass.from_chars ⟨0x67, 0x65, 0x73, 0x74⟩

/-- `AEEventClass::CLOCK_VIEW`, value `cloc` (`kEventClassClockView`). -/
def AEEventClass.CLOCK_VIEW : AEEventClass := AEEventClass.from_chars ⟨0x63, 0x6C, 0x6F, 0x63⟩

/-- `AEEventClass::TEXT_FIELD`, value `txfd` (`kEventClassTextField`). -/
def AEEventClass.TEXT_FIELD : AEEventClass := AEEventClass.from_chars ⟨0x74, 0x78, 0x66, 0x64⟩

/-- `AEEventClass::HI_OBJECT`, value `hiob` (`kEventClassHIObject`). -/
def AEEventClass.HI_OBJECT : AEEventClass := AEEventClass.from_chars ⟨0x68, 0x69, 0x6F, 0x62⟩

/-- `AEEventClass::DELEGATE`, value `dele` (`kEventClassDelegate`). -/
def AEEventClass.DELEGATE : AEEventClass := AEEventClass.from_chars ⟨0x64, 0x65, 0x6C, 0x65⟩

/-- `AEEventClass::SCROLLABLE`, value `scrl` (`kEventClassScrollable`). -/
def AEEventClass.SCROLLABLE : AEEventClass := AEEventClass.from_chars ⟨0x73, 0x63, 0x72, 0x6C⟩

/-- `AEEventClass::HI_COMBO_BOX`, value `hicb` (`kEventClassHIComboBox`). -/
def AEEventClass.HI_COMBO_BOX : AEEventClass := AEEventClass.from_chars ⟨0x68, 0x69, 0x63, 0x62⟩

/-- `AEEventClass::SEARCH_FIELD`, value `srfd` (`kEventClassSearchField`). -/
def AEEventClass.SEARCH_FIELD : AEEventClass := AEEventClass.from_chars ⟨0x73, 0x72, 0x66, 0x64⟩

/-- `AEEventClass::APPEARANCE`, value `appr` (`kAppearanceEventClass`). -/
def AEEventClass.APPEARANCE : AEEventClass := AEEventClass.from_chars ⟨0x61, 0x70, 0x70, 0x72⟩

/-- `AEEventClass::DATA_BROWSER`, value `hidb` (`kEventClassDataBrowser`). -/
def AEEventClass.DATA_BROWSER : AEEventClass := AEEventClass.from_chars ⟨0x68, 0x69, 0x64, 0x62⟩

/-- `AEEventClass::INTERNET`, value `GURL` (`kInternetEventClass`). -/
def AEEventClass.INTERNET : AEEventClass := AEEventClass.from_chars ⟨0x47, 0x55, 0x52, 0x4C⟩

/-- `AEEventClass::IC_EDIT_PREFERENCE`, value `ICAp` (`kICEditPreferenceEventClass`). -/
def AEEventClass.IC_EDIT_PREFERENCE : AEEventClass := AEEventClass.from_chars ⟨0x49, 0x43, 0x41, 0x70⟩

/-- `AEEventClass::DIGI_HUB`, value `dhub` (`kDigiHubEventClass`). -/
def AEEventClass.DIGI_HUB : AEEventClass := AEEventClass.from_chars ⟨0x64, 0x68, 0x75, 0x62⟩

/-- `AEEventClass::FONT`, value `font` (`kEventClassFont`). -/
def AEEventClass.FONT : AEEventClass := AEEventClass.from_chars ⟨0x66, 0x6F, 0x6E, 0x74⟩

/-- `AEEventClass::AB_PEOPLE_PICKER`, value `abpp` (`kEventClassABPeoplePicker`). -/
def AEEventClass.AB_PEOPLE_PICKER : AEEventClass := AEEventClass.from_chars ⟨0x61, 0x62, 0x70, 0x70⟩

/-- The catalog of all named `AEEventClass` constants defined in
`event_class.rs`, in source order (`CORE` through `AB_PEOPLE_PICKER`). -/
def AEEventClass.allConstants : List AEEventClass :=
  [AEEventClass.CORE, AEEventClass.MOUSE, AEEventClass.KEYBOARD,
   AEEventClass.TEXT_INPUT, AEEventClass.APPLICATION, AEEventClass.APPLE_EVENT,
   AEEventClass.MENU, AEEventClass.WINDOW, AEEventClass.CONTROL,
   AEEventClass.COMMAND, AEEventClass.TABLET, AEEventClass.VOLUME,
   AEEventClass.APPEARANCE_MANAGER, AEEventClass.SERVICE, AEEventClass.TOOLBAR,
   AEEventClass.TOOLBAR_ITEM, AEEventClass.TOOLBAR_ITEM_VIEW,
   AEEventClass.ACCESSIBILITY, AEEventClass.SYSTEM, AEEventClass.INK,
   AEEventClass.TSM_DOCUMENT_ACCESS, AEEventClass.GESTURE,
   AEEventClass.CLOCK_VIEW, AEEventClass.TEXT_FIELD, AEEventClass.HI_OBJECT,
   AEEventClass.DELEGATE, AEEventClass.SCROLLABLE, AEEventClass.HI_COMBO_BOX,
   AEEventClass.SEARCH_FIELD, AEEventClass.APPEARANCE,
   AEEventClass.DATA_BROWSER, AEEventClass.INTERNET,
   AEEventClass.IC_EDIT_PREFERENCE, AEEventClass.DIGI_HUB, AEEventClass.FONT,
   AEEventClass.AB_PEOPLE_PICKER]

/-- `CFIndex`, the Rust alias `pub type CFIndex = isize`
(`core_foundation/mod.rs`, line 35): a signed index type, embedded as `Int`. -/
abbrev CFIndex : Type := Int

/-- `kCFNotFound`, the search-failure sentinel
(`core_foundation/mod.rs`, line 24): `pub const kCFNotFound: CFIndex = -1`. -/
def kCFNotFound : CFIndex := -1

/-- C1: for every 4-byte sequence `b`, `from_chars(b).into_chars() == b`, and
conversely `from_chars` applied to a value's `into_chars()` recovers the value
(for every value whose stored integer fits in 32 bits): `from_chars` and
`into_chars` are exact inverses of each other. -/
theorem AEEventClass.chars_roundtrip :
    (∀ b : Chars4, b.Valid → (AEEventClass.from_chars b).into_chars = b) ∧
    (∀ x : AEEventClass, x.into_int < 2 ^ 32 →
      AEEventClass.from_chars x.into_chars = x) := by
  constructor
  · rintro ⟨b0, b1, b2, b3⟩ h
    simp only [Chars4.Valid] at h
    obtain ⟨h0, h1, h2, h3⟩ := h
    simp only [AEEventClass.from_chars, AEEventClass.into_chars,
      FourCharCode.from_chars, FourCharCode.into_chars, Chars4.mk.injEq]
    refine ⟨?_, ?_, ?_, ?_⟩ <;> omega
  · rintro ⟨⟨v⟩⟩ hv
    simp only [AEEventClass.into_int, FourCharCode.into_int] at hv
    simp only [AEEventClass.from_chars, AEEventClass.into_chars,
      FourCharCode.from_chars, FourCharCode.into_chars,
      AEEventClass.mk.injEq, FourCharCode.mk.injEq]
    omega

/-- Witness for C1: the roundtrip laws evaluated at the byte sequence
`aevt` = `[0x61, 0x65, 0x76, 0x74]` and at the packed value `0x61657674`. -/
theorem AEEventClass.chars_roundtrip_witness :
    (AEEventClass.from_chars ⟨0x61, 0x65, 0x76, 0x74⟩).into_chars =
        ⟨0x61, 0x65, 0x76, 0x74⟩ ∧
    AEEventClass.from_chars (AEEventClass.from_int 0x61657674).into_chars =
        AEEventClass.from_int 0x61657674 :=
  ⟨AEEventClass.chars_roundtrip.1 ⟨0x61, 0x65, 0x76, 0x74⟩ (by decide),
   AEEventClass.chars_roundtrip.2 (AEEventClass.from_int 0x61657674) (by decide)⟩

/-- C2: for every 4-byte sequence `b`, `from_chars(b).into_int()` is the
big-endian interpretation of the bytes as an unsigned 32-bit integer (the
first byte occupies the most significant 8 bits); in particular
`from_chars([0x61, 0x65, 0x76, 0x74]).into_int() == 0x61657674`. -/
theorem AEEventClass.into_int_big_endian :
    (∀ b : Chars4, (AEEventClass.from_chars b).into_int =
      b.c0 * 2 ^ 24 + b.c1 * 2 ^ 16 + b.c2 * 2 ^ 8 + b.c3) ∧
    (AEEventClass.from_chars ⟨0x61, 0x65, 0x76, 0x74⟩).into_int = 0x61657674 :=
  ⟨fun _ => rfl, by decide⟩

/-- C3: for every 32-bit unsigned integer `v`,
`from_int(v).into_int() == v`: `from_int` wraps the raw integer verbatim and
`into_int` returns the stored value unchanged. -/
theorem AEEventClass.int_roundtrip (v : Nat) (_hv : v < 2 ^ 32) :
    (AEEventClass.from_int v).into_int = v := rfl

/-- Witness for C3: the integer roundtrip evaluated at `0x61657674`. -/
theorem AEEventClass.int_roundtrip_witness :
    (AEEventClass.from_int 0x61657674).into_int = 0x61657674 :=
  AEEventClass.int_roundtrip 0x61657674 (by decide)

/-- C4: every documented named constant's `into_chars()` output equals its
documented 4-character code; in particular
`CORE.into_chars() == [0x61, 0x65, 0x76, 0x74]` (the bytes of `aevt`) and
`MOUSE.into_chars() == [0x6D, 0x6F, 0x75, 0x73]` (the bytes of `mous`).
All 36 documented constants are checked against their documented codes. -/
theorem AEEventClass.constants_fidelity :
    AEEventClass.CORE.into_chars = ⟨0x61, 0x65, 0x76, 0x74⟩ ∧
    AEEventClass.MOUSE.into_chars = ⟨0x6D, 0x6F, 0x75, 0x73⟩ ∧
    AEEventClass.KEYBOARD.into_chars = ⟨0x6B, 0x65, 0x79, 0x62⟩ ∧
    AEEventClass.TEXT_INPUT.into_chars = ⟨0x74, 0x65, 0x78, 0x74⟩ ∧
    AEEventClass.APPLICATION.into_chars = ⟨0x61, 0x70, 0x70, 0x6C⟩ ∧
    AEEventClass.APPLE_EVENT.into_chars = ⟨0x65, 0x70, 0x70, 0x63⟩ ∧
    AEEventClass.MENU.into_chars = ⟨0x6D, 0x65, 0x6E, 0x75⟩ ∧
    AEEventClass.WINDOW.into_chars = ⟨0x77, 0x69, 0x6E, 0x64⟩ ∧
    AEEventClass.CONTROL.into_chars = ⟨0x63, 0x6E, 0x74, 0x6C⟩ ∧
    AEEventClass.COMMAND.into_chars = ⟨0x63, 0x6D, 0x64, 0x73⟩ ∧
    AEEventClass.TABLET.into_chars = ⟨0x74, 0x62, 0x6C, 0x74⟩ ∧
    AEEventClass.VOLUME.into_chars = ⟨0x76, 0x6F, 0x6C, 0x20⟩ ∧
    AEEventClass.APPEARANCE_MANAGER.into_chars = ⟨0x61, 0x70, 0x70, 0x6D⟩ ∧
    AEEventClass.SERVICE.into_chars = ⟨0x73, 0x65, 0x72, 0x76⟩ ∧
    AEEventClass.TOOLBAR.into_chars = ⟨0x74, 0x62, 0x61, 0x72⟩ ∧
    AEEventClass.TOOLBAR_ITEM.into_chars = ⟨0x74, 0x62, 0x69, 0x74⟩ ∧
    AEEventClass.TOOLBAR_ITEM_VIEW.into_chars = ⟨0x74, 0x62, 0x69, 0x76⟩ ∧
    AEEventClass.ACCESSIBILITY.into_chars = ⟨0x61, 0x63, 0x63, 0x65⟩ ∧
    AEEventClass.SYSTEM.into_chars = ⟨0x6D, 0x61, 0x63, 0x73⟩ ∧
    AEEventClass.INK.into_chars = ⟨0x69, 0x6E, 0x6B, 0x20⟩ ∧
    AEEventClass.TSM_DOCUMENT_ACCESS.into_chars = ⟨0x74, 0x64, 0x61, 0x63⟩ ∧
    AEEventClass.GESTURE.into_chars = ⟨0x67, 0x65, 0x73, 0x74⟩ ∧
    AEEventClass.CLOCK_VIEW.into_chars = ⟨0x63, 0x6C, 0x6F, 0x63⟩ ∧
    AEEventClass.TEXT_FIELD.into_chars = ⟨0x74, 0x78, 0x66, 0x64⟩ ∧
    AEEventClass.HI_OBJECT.into_chars = ⟨0x68, 0x69, 0x6F, 0x62⟩ ∧
    AEEventClass.DELEGATE.into_chars = ⟨0x64, 0x65, 0x6C, 0x65⟩ ∧
    AEEventClass.SCROLLABLE.into_chars = ⟨0x73, 0x63, 0x72, 0x6C⟩ ∧
    AEEventClass.HI_COMBO_BOX.into_chars = ⟨0x68, 0x69, 0x63, 0x62⟩ ∧
    AEEventClass.SEARCH_FIELD.into_chars = ⟨0x73, 0x72, 0x66, 0x64⟩ ∧
    AEEventClass.APPEARANCE.into_chars = ⟨0x61, 0x70, 0x70, 0x72⟩ ∧
    AEEventClass.DATA_BROWSER.into_chars = ⟨0x68, 0x69, 0x64, 0x62⟩ ∧
    AEEventClass.INTERNET.into_chars = ⟨0x47, 0x55, 0x52, 0x4C⟩ ∧
    AEEventClass.IC_EDIT_PREFERENCE.into_chars = ⟨0x49, 0x43, 0x41, 0x70⟩ ∧
    AEEventClass.DIGI_HUB.into_chars = ⟨0x64, 0x68, 0x75, 0x62⟩ ∧
    AEEventClass.FONT.into_chars = ⟨0x66, 0x6F, 0x6E, 0x74⟩ ∧
    AEEventClass.AB_PEOPLE_PICKER.into_chars = ⟨0x61, 0x62, 0x70, 0x70⟩ := by
  decide

/-- C5: two values constructed from the same bytes compare equal, and the
type's total order agrees with numeric ordering of the packed 32-bit integer:
equality and ordering are structural on the wrapped value. -/
theorem AEEventClass.eq_ord_structural :
    (∀ b c : Chars4, b = c →
      AEEventClass.from_chars b = AEEventClass.from_chars c) ∧
    (∀ x y : AEEventClass,
      AEEventClass.le x y ↔ x.into_int ≤ y.into_int) := by
  exact ⟨fun b c h => h ▸ rfl, fun x y => Iff.rfl⟩

/-- Witness for C5: equal bytes `aevt` give equal values, and the order
agrees with the numeric order at `CORE` and `MOUSE`. -/
theorem AEEventClass.eq_ord_structural_witness :
    AEEventClass.from_chars ⟨0x61, 0x65, 0x76, 0x74⟩ =
        AEEventClass.from_chars ⟨0x61, 0x65, 0x76, 0x74⟩ ∧
    (AEEventClass.le AEEventClass.CORE AEEventClass.MOUSE ↔
      AEEventClass.CORE.into_int ≤ AEEventClass.MOUSE.into_int) :=
  ⟨AEEventClass.eq_ord_structural.1 _ _ rfl,
   AEEventClass.eq_ord_structural.2 AEEventClass.CORE AEEventClass.MOUSE⟩

/-- C6: every operation of the type is a total pure function over its
fixed-width input: for every byte sequence (a value of the 4-field type
`Chars4`, so a sequence of any other length is impossible by construction)
and every 32-bit integer, the operations succeed and produce well-formed
results — a 32-bit `into_int` and a valid byte sequence from `into_chars`. -/
theorem AEEventClass.ops_total :
    (∀ b : Chars4, b.Valid →
      (AEEventClass.from_chars b).into_int < 2 ^ 32 ∧
      ((AEEventClass.from_chars b).into_chars).Valid) ∧
    (∀ v : Nat, v < 2 ^ 32 →
      (AEEventClass.from_int v).into_int < 2 ^ 32 ∧
      ((AEEventClass.from_int v).into_chars).Valid) := by
  constructor
  · rintro ⟨b0, b1, b2, b3⟩ h
    simp only [Chars4.Valid] at h
    simp only [AEEventClass.from_chars, AEEventClass.into_int,
      AEEventClass.into_chars, FourCharCode.from_chars, FourCharCode.into_int,
      FourCharCode.into_chars, Chars4.Valid]
    omega
  · intro v hv
    simp only [AEEventClass.from_int, AEEventClass.into_int,
      AEEventClass.into_chars, FourCharCode.from_int, FourCharCode.into_int,
      FourCharCode.into_chars, Chars4.Valid]
    omega

/-- Witness for C6: totality and well-formedness evaluated at the byte
sequence `aevt` and at the integer `0x61657674`. -/
theorem AEEventClass.ops_total_witness :
    ((AEEventClass.from_chars ⟨0x61, 0x65, 0x76, 0x74⟩).into_int < 2 ^ 32 ∧
      ((AEEventClass.from_chars ⟨0x61, 0x65, 0x76, 0x74⟩).into_chars).Valid) ∧
    ((AEEventClass.from_int 0x61657674).into_int < 2 ^ 32 ∧
      ((AEEventClass.from_int 0x61657674).into_chars).Valid) :=
  ⟨AEEventClass.ops_total.1 ⟨0x61, 0x65, 0x76, 0x74⟩ (by decide),
   AEEventClass.ops_total.2 0x61657674 (by decide)⟩

/-- C7: Debug formatting of a value whose four bytes are all printable ASCII
renders exactly those four characters (no escaping, no raw integer). -/
theorem AEEventClass.fmt_printable (x : AEEventClass)
    (h0 : printableAscii x.into_chars.c0 = true)
    (h1 : printableAscii x.into_chars.c1 = true)
    (h2 : printableAscii x.into_chars.c2 = true)
    (h3 : printableAscii x.into_chars.c3 = true) :
    x.fmt = [Char.ofNat x.into_chars.c0, Char.ofNat x.into_chars.c1,
      Char.ofNat x.into_chars.c2, Char.ofNat x.into_chars.c3] := by
  simp only [AEEventClass.into_chars] at h0 h1 h2 h3 ⊢
  simp only [AEEventClass.fmt, FourCharCode.fmtDebug, renderByte, h0, h1, h2,
    h3, if_true, List.append_assoc, List.singleton_append, List.cons_append,
    List.nil_append]

/-- Witness for C7: the Debug rendering of `CORE` (bytes `aevt`, all
printable) is the four characters `a`, `e`, `v`, `t`. -/
theorem AEEventClass.fmt_printable_witness :
    AEEventClass.CORE.fmt = [Char.ofNat 0x61, Char.ofNat 0x65,
      Char.ofNat 0x76, Char.ofNat 0x74] :=
  AEEventClass.fmt_printable AEEventClass.CORE
    (by decide) (by decide) (by decide) (by decide)

/-- C8: the catalog holds all 36 named constants (`CORE` through
`AB_PEOPLE_PICKER`) and they are pairwise distinct: no two of their
`into_int()` values coincide, so no two constants compare equal. -/
theorem AEEventClass.constants_distinct :
    AEEventClass.allConstants.length = 36 ∧
    (AEEventClass.allConstants.map AEEventClass.into_int).Nodup := by
  decide

/-- C9: not every named constant consists of four letters:
`VOLUME.into_chars() == [0x76, 0x6F, 0x6C, 0x20]` and
`INK.into_chars() == [0x69, 0x6E, 0x6B, 0x20]` (each ending in an ASCII
space byte), and `INTERNET.into_chars() == [0x47, 0x55, 0x52, 0x4C]`
(uppercase `GURL`). -/
theorem AEEventClass.non_letter_constants :
    AEEventClass.VOLUME.into_chars = ⟨0x76, 0x6F, 0x6C, 0x20⟩ ∧
    AEEventClass.INK.into_chars = ⟨0x69, 0x6E, 0x6B, 0x20⟩ ∧
    AEEventClass.INTERNET.into_chars = ⟨0x47, 0x55, 0x52, 0x4C⟩ := by
  decide

/-- C10: the search-failure sentinel `kCFNotFound` equals `-1` and has the
signed index type `CFIndex`, so it is negative and distinct from every valid
(nonnegative) array index. -/
theorem kCFNotFound_sentinel :
    kCFNotFound = -1 ∧ kCFNotFound < 0 ∧
    ∀ i : Nat, (i : CFIndex) ≠ kCFNotFound := by
  refine ⟨rfl, by decide, fun i h => ?_⟩
  have h2 : (i : Int) = -1 := h
  omega
